import Mathlib

/-!
Shallow embedding of the freeserf DOS data source (src/data-source-dos.cc) and
the game-object collection template (src/objects.h).

Bytes are modelled as `Nat` values (each < 256 in practice), buffers as
`List Nat` read from the front.  C++ exceptions become `Except DecodeError`,
null pointers become `Option`.  Parts of the repository that are not in the
provided sources (buffer.h, data.h, data-source.cc) are modelled from the
specification and marked as such in their doc comments.
-/

namespace Freeserf

/-- One (size, offset) record of the archive index table (data-source-dos.h). -/
structure DataEntry where
  size : Nat
  offset : Nat
deriving DecidableEq, Inhabited

/-- A DOS palette color: three bytes r, g, b. -/
structure ColorDOS where
  r : Nat
  g : Nat
  b : Nat
deriving DecidableEq, Inhabited

/-- Sprite encodings, as in the `dos_resources` table. -/
inductive SpriteType where
  | SpriteTypeUnknown
  | SpriteTypeSolid
  | SpriteTypeTransparent
  | SpriteTypeOverlay
  | SpriteTypeMask
deriving DecidableEq

/-- Failure outcomes of decoding.  `truncated` covers a byte range shorter than
the 10-byte header and a run-length pop past the end of the supplied range;
`sizeMismatch` is the Solid total-size integrity check; `nullDeref` models the
undefined behaviour of constructing a sprite from a null buffer. -/
inductive DecodeError where
  | truncated
  | sizeMismatch
  | nullDeref
deriving DecidableEq, Inhabited

/-- A decoded sprite: the 10-byte header metadata plus the RGBA byte stream
(emitted blue, green, red, alpha, one byte each per channel). -/
structure Sprite where
  delta_x : Int
  delta_y : Int
  width : Nat
  height : Nat
  offset_x : Int
  offset_y : Int
  pixels : List Nat
deriving DecidableEq, Inhabited

/-- Logical asset kinds (Data::Resource), in the order of the rows of
`dos_resources` (the row comments in data-source-dos.cc name them). -/
inductive Resource where
  | AssetNone
  | AssetArtLandscape
  | AssetAnimation
  | AssetSerfShadow
  | AssetDottedLines
  | AssetArtFlag
  | AssetArtBox
  | AssetCreditsBg
  | AssetLogo
  | AssetSymbol
  | AssetMapMaskUp
  | AssetMapMaskDown
  | AssetPathMask
  | AssetMapGround
  | AssetPathGround
  | AssetGameObject
  | AssetFrameTop
  | AssetMapBorder
  | AssetMapWaves
  | AssetFramePopup
  | AssetIndicator
  | AssetFont
  | AssetFontShadow
  | AssetIcon
  | AssetMapObject
  | AssetMapShadow
  | AssetPanelButton
  | AssetFrameBottom
  | AssetSerfTorso
  | AssetSerfHead
  | AssetFrameSplit
  | AssetSound
  | AssetMusic
  | AssetCursor
  | AssetPalette
deriving DecidableEq

/-- One row of the static `dos_resources` catalog. -/
structure ResourceDOS where
  index : Nat
  dos_palette : Nat
  sprite_type : SpriteType

/-- The static `dos_resources` table (data-source-dos.cc:51-87), indexed by the
logical resource kind. -/
def dos_resources : Resource → ResourceDOS
  | .AssetNone         => ⟨0,    0,    .SpriteTypeUnknown⟩
  | .AssetArtLandscape => ⟨1,    3997, .SpriteTypeSolid⟩
  | .AssetAnimation    => ⟨2,    0,    .SpriteTypeUnknown⟩
  | .AssetSerfShadow   => ⟨4,    3,    .SpriteTypeOverlay⟩
  | .AssetDottedLines  => ⟨5,    3,    .SpriteTypeSolid⟩
  | .AssetArtFlag      => ⟨15,   3997, .SpriteTypeSolid⟩
  | .AssetArtBox       => ⟨25,   3,    .SpriteTypeSolid⟩
  | .AssetCreditsBg    => ⟨40,   3998, .SpriteTypeSolid⟩
  | .AssetLogo         => ⟨41,   3998, .SpriteTypeSolid⟩
  | .AssetSymbol       => ⟨42,   3,    .SpriteTypeSolid⟩
  | .AssetMapMaskUp    => ⟨60,   3,    .SpriteTypeMask⟩
  | .AssetMapMaskDown  => ⟨141,  3,    .SpriteTypeMask⟩
  | .AssetPathMask     => ⟨230,  3,    .SpriteTypeMask⟩
  | .AssetMapGround    => ⟨260,  3,    .SpriteTypeSolid⟩
  | .AssetPathGround   => ⟨300,  3,    .SpriteTypeSolid⟩
  | .AssetGameObject   => ⟨321,  3,    .SpriteTypeTransparent⟩
  | .AssetFrameTop     => ⟨600,  3,    .SpriteTypeSolid⟩
  | .AssetMapBorder    => ⟨610,  3,    .SpriteTypeTransparent⟩
  | .AssetMapWaves     => ⟨630,  3,    .SpriteTypeTransparent⟩
  | .AssetFramePopup   => ⟨660,  3,    .SpriteTypeSolid⟩
  | .AssetIndicator    => ⟨670,  3,    .SpriteTypeSolid⟩
  | .AssetFont         => ⟨750,  3,    .SpriteTypeTransparent⟩
  | .AssetFontShadow   => ⟨810,  3,    .SpriteTypeTransparent⟩
  | .AssetIcon         => ⟨870,  3,    .SpriteTypeSolid⟩
  | .AssetMapObject    => ⟨1250, 3,    .SpriteTypeTransparent⟩
  | .AssetMapShadow    => ⟨1500, 3,    .SpriteTypeOverlay⟩
  | .AssetPanelButton  => ⟨1750, 3,    .SpriteTypeSolid⟩
  | .AssetFrameBottom  => ⟨1780, 3,    .SpriteTypeSolid⟩
  | .AssetSerfTorso    => ⟨2500, 3,    .SpriteTypeTransparent⟩
  | .AssetSerfHead     => ⟨3150, 3,    .SpriteTypeTransparent⟩
  | .AssetFrameSplit   => ⟨3880, 3,    .SpriteTypeSolid⟩
  | .AssetSound        => ⟨3900, 0,    .SpriteTypeUnknown⟩
  | .AssetMusic        => ⟨3990, 0,    .SpriteTypeUnknown⟩
  | .AssetCursor       => ⟨3999, 3,    .SpriteTypeTransparent⟩
  | .AssetPalette      => ⟨3,    0,    .SpriteTypeUnknown⟩

/-- The loaded data source: the parsed index table and the raw archive bytes. -/
structure DataSourceState where
  entries : List DataEntry
  spae : List Nat

/-- Value of a byte reinterpreted as a signed 8-bit integer. -/
def toInt8 (b : Nat) : Int :=
  if b < 128 then (b : Int) else (b : Int) - 256

/-- Value of two little-endian bytes reinterpreted as a signed 16-bit integer. -/
def toInt16 (lo hi : Nat) : Int :=
  if lo + 256 * hi < 32768 then ((lo + 256 * hi : Nat) : Int)
  else ((lo + 256 * hi : Nat) : Int) - 65536

/-- Modelled from the spec: `Buffer::get_subbuffer` (buffer.h is not among the
provided sources).  `getRange(offset, size)` yields the byte slice, failing
with OutOfBounds (here `none`) when `offset + size` exceeds the buffer. -/
def get_subbuffer (spae : List Nat) (offset size : Nat) : Option (List Nat) :=
  if offset + size ≤ spae.length then some ((spae.drop offset).take size)
  else none

/-- `DataSourceDOS::get_object` (data-source-dos.cc:169-181): null when the
index is outside the table or the entry's offset is zero, otherwise the
sub-buffer at the entry's offset with the entry's declared size. -/
def get_object (s : DataSourceState) (index : Nat) : Option (List Nat) :=
  if index ≥ s.entries.length then none
  else
    let e := s.entries.getD index ⟨0, 0⟩
    if e.offset = 0 then none
    else get_subbuffer s.spae e.offset e.size

/-- `DataSourceDOS::get_dos_palette` (data-source-dos.cc:427-435): fetch the
palette object and require its size to be exactly `sizeof(ColorDOS) * 256 =
768` bytes; the bytes are then viewed as 256 (r, g, b) records. -/
def get_dos_palette (s : DataSourceState) (index : Nat) : Option (Nat → ColorDOS) :=
  match get_object s index with
  | none => none
  | some d =>
    if d.length ≠ 3 * 256 then none
    else some (fun i => ⟨d.getD (3 * i) 0, d.getD (3 * i + 1) 0, d.getD (3 * i + 2) 0⟩)

/-- Big-endian 4-byte pop (`Buffer::pop<uint32_t>` after
`set_endianess(EndianessBig)`); fails when fewer than 4 bytes remain.
The failure case is modelled from the spec's OutOfBounds policy, buffer.h not
being among the provided sources. -/
def pop32BE (d : List Nat) : Option (Nat × List Nat) :=
  match d with
  | b0 :: b1 :: b2 :: b3 :: rest => some (((b0 * 256 + b1) * 256 + b2) * 256 + b3, rest)
  | _ => none

/-- The animation-table step of `DataSourceDOS::load` (data-source-dos.cc:155-166):
`size` is the resolved table resource's full byte count (taken before anything
is popped), the big-endian 4-byte value is popped and compared against `size`,
and on success the remainder (`pop_tail`) is returned. -/
def load_animation_step (anim : List Nat) : Option (List Nat) :=
  let size := anim.length
  match pop32BE anim with
  | none => none
  | some (val, rest) => if size ≠ val then none else some rest

/-- Header parse shared by all sprites (`SpriteBaseDOS::SpriteBaseDOS`,
data-source-dos.cc:380-391): a range shorter than 10 bytes throws; otherwise
pop signed deltas (1 byte each), unsigned width and height (2 little-endian
bytes each) and signed offsets (2 little-endian bytes each). -/
def SpriteBaseDOS (d : List Nat) : Except DecodeError (Sprite × List Nat) :=
  if d.length < 10 then .error .truncated
  else .ok ({ delta_x := toInt8 (d.getD 0 0),
              delta_y := toInt8 (d.getD 1 0),
              width := d.getD 2 0 + 256 * d.getD 3 0,
              height := d.getD 4 0 + 256 * d.getD 5 0,
              offset_x := toInt16 (d.getD 6 0) (d.getD 7 0),
              offset_y := toInt16 (d.getD 8 0) (d.getD 9 0),
              pixels := [] }, d.drop 10)

/-- Body loop of the Solid decoder: every remaining byte is one palette index,
emitted as an opaque blue, green, red, alpha pixel. -/
def solidPixels (palette : Nat → ColorDOS) : List Nat → List Nat
  | [] => []
  | b :: rest =>
    (palette b).b :: (palette b).g :: (palette b).r :: 255 :: solidPixels palette rest

/-- `DataSourceDOS::SpriteDosSolid::SpriteDosSolid` (data-source-dos.cc:297-315):
parse the header, require the full range size to equal `width * height + 10`,
then map every remaining byte through the palette. -/
def SpriteDosSolid (d : List Nat) (palette : Nat → ColorDOS) : Except DecodeError Sprite :=
  match SpriteBaseDOS d with
  | .error e => .error e
  | .ok (base, rest) =>
    if d.length ≠ base.width * base.height + 10 then .error .sizeMismatch
    else .ok { base with pixels := solidPixels palette rest }

/-- Fill loop of the Transparent decoder: pop `fill` palette-index bytes, each
offset by `color` before the palette lookup, emitting opaque pixels; popping
past the end of the range fails (spec's OutOfBounds policy). -/
def fillPixels (palette : Nat → ColorDOS) (color : Nat) :
    Nat → List Nat → Option (List Nat × List Nat)
  | 0, d => some ([], d)
  | _ + 1, [] => none
  | n + 1, b :: rest =>
    match fillPixels palette color n rest with
    | none => none
    | some (px, rest2) =>
      some ((palette (b + color)).b :: (palette (b + color)).g ::
            (palette (b + color)).r :: 255 :: px, rest2)

theorem fillPixels_length (palette : Nat → ColorDOS) (color : Nat) :
    ∀ (n : Nat) (d px rest : List Nat),
      fillPixels palette color n d = some (px, rest) → rest.length ≤ d.length := by
  intro n
  induction n with
  | zero =>
    intro d px rest h
    simp only [fillPixels, Option.some.injEq, Prod.mk.injEq] at h
    obtain ⟨-, h2⟩ := h
    subst h2
    exact Nat.le_refl _
  | succ n ih =>
    intro d px rest h
    cases d with
    | nil => simp [fillPixels] at h
    | cons b tl =>
      simp only [fillPixels] at h
      cases hf : fillPixels palette color n tl with
      | none => rw [hf] at h; simp at h
      | some pr =>
        obtain ⟨px2, rest2⟩ := pr
        rw [hf] at h
        simp only [Option.some.injEq, Prod.mk.injEq] at h
        obtain ⟨-, h2⟩ := h
        subst h2
        have := ih tl px2 rest2 hf
        simpa using Nat.le_succ_of_le this

/-- Run-length body of the Transparent decoder (`while readable` loop of
data-source-dos.cc:323-336): pop a drop count (emit that many fully
transparent zero pixels), pop a fill count, emit the filled pixels, repeat
until the range is exhausted. -/
def transBody (palette : Nat → ColorDOS) (color : Nat) :
    List Nat → Except DecodeError (List Nat)
  | [] => .ok []
  | [_] => .error .truncated
  | drop :: fill :: rest2 =>
    match h : fillPixels palette color fill rest2 with
    | none => .error .truncated
    | some (px, rest3) =>
      match transBody palette color rest3 with
      | .error e => .error e
      | .ok px2 => .ok (List.replicate (4 * drop) 0 ++ (px ++ px2))
termination_by d => d.length
decreasing_by
  have := fillPixels_length palette color fill rest2 px rest3 h
  simp only [List.length_cons]
  omega

/-- `DataSourceDOS::SpriteDosTransparent::SpriteDosTransparent`
(data-source-dos.cc:317-339), parameterized by the palette color offset
(default 0 at most call sites; 64 and 72 for the serf torso variants). -/
def SpriteDosTransparent (d : List Nat) (palette : Nat → ColorDOS) (color : Nat) :
    Except DecodeError Sprite :=
  match SpriteBaseDOS d with
  | .error e => .error e
  | .ok (base, rest) =>
    match transBody palette color rest with
    | .error e => .error e
    | .ok px => .ok { base with pixels := px }

/-- Fill pixels of the Overlay decoder: every filled pixel uses the single
palette entry at `value` and reuses `value` as its alpha channel; no stream
bytes are consumed by the fill loop. -/
def overlayPixels (palette : Nat → ColorDOS) (value : Nat) : Nat → List Nat
  | 0 => []
  | n + 1 =>
    (palette value).b :: (palette value).g :: (palette value).r :: value ::
      overlayPixels palette value n

/-- Run-length body of `DataSourceDOS::SpriteDosOverlay::SpriteDosOverlay`
(data-source-dos.cc:341-362). -/
def overlayBody (palette : Nat → ColorDOS) (value : Nat) :
    List Nat → Except DecodeError (List Nat)
  | [] => .ok []
  | [_] => .error .truncated
  | drop :: fill :: rest2 =>
    match overlayBody palette value rest2 with
    | .error e => .error e
    | .ok px2 => .ok (List.replicate (4 * drop) 0 ++ (overlayPixels palette value fill ++ px2))

/-- `DataSourceDOS::SpriteDosOverlay::SpriteDosOverlay`. -/
def SpriteDosOverlay (d : List Nat) (palette : Nat → ColorDOS) (value : Nat) :
    Except DecodeError Sprite :=
  match SpriteBaseDOS d with
  | .error e => .error e
  | .ok (base, rest) =>
    match overlayBody palette value rest with
    | .error e => .error e
    | .ok px => .ok { base with pixels := px }

/-- Run-length body of `DataSourceDOS::SpriteDosMask::SpriteDosMask`
(data-source-dos.cc:364-377): dropped pixels are four zero bytes, filled
pixels are four 0xFF bytes. -/
def maskBody : List Nat → Except DecodeError (List Nat)
  | [] => .ok []
  | [_] => .error .truncated
  | drop :: fill :: rest2 =>
    match maskBody rest2 with
    | .error e => .error e
    | .ok px2 => .ok (List.replicate (4 * drop) 0 ++ (List.replicate (4 * fill) 255 ++ px2))

/-- `DataSourceDOS::SpriteDosMask::SpriteDosMask`. -/
def SpriteDosMask (d : List Nat) : Except DecodeError Sprite :=
  match SpriteBaseDOS d with
  | .error e => .error e
  | .ok (base, rest) =>
    match maskBody rest with
    | .error e => .error e
    | .ok px => .ok { base with pixels := px }

/-- Modelled from the spec: the pixel-by-pixel difference mask built by the
Sprite Compositor (`create_mask`, data-source.cc is not among the provided
sources).  Each 4-byte pixel of the mask is opaque white where the two inputs
differ and fully transparent where they agree. -/
def maskPixels : List Nat → List Nat → List Nat
  | b1 :: g1 :: r1 :: a1 :: t1, b2 :: g2 :: r2 :: a2 :: t2 =>
    (if b1 = b2 ∧ g1 = g2 ∧ r1 = r2 ∧ a1 = a2 then [0, 0, 0, 0] else [255, 255, 255, 255])
      ++ maskPixels t1 t2
  | _, _ => []

/-- Modelled from the spec: `create_mask` requires identical dimensions
(mismatch yields no mask) and derives the binary opacity mask from where the
two sprites' pixels differ. -/
def create_mask (s1 s2 : Sprite) : Option Sprite :=
  if s1.width = s2.width ∧ s1.height = s2.height then
    some { s1 with pixels := maskPixels s1.pixels s2.pixels }
  else none

/-- Modelled from the spec: `DataSource::separate_sprites` (data-source.cc is
not among the provided sources) returns the difference mask together with the
primary sprite as the image component. -/
def separate_sprites (s1 s2 : Sprite) : Option Sprite × Option Sprite :=
  (create_mask s1 s2, some s1)

/-- Modelled from the spec: pixel combination of `Sprite::stick` at offset
(0, 0) — overlay pixels replace base pixels exactly where the overlay's alpha
channel is non-zero. -/
def stickPixels : List Nat → List Nat → List Nat
  | bb :: bg :: br :: ba :: bt, ob :: og :: orr :: oa :: ot =>
    (if 0 < oa then [ob, og, orr, oa] else [bb, bg, br, ba]) ++ stickPixels bt ot
  | base, _ => base

/-- Modelled from the spec: `Sprite::stick` composites the overlay onto the
base (the only call site uses offset (0, 0)); the base sprite is mutated in
place in the original, so the facade's returned image is the stuck sprite. -/
def stick (base overlay : Sprite) : Sprite :=
  { base with pixels := stickPixels base.pixels overlay.pixels }

/-- The `switch (dos_res.sprite_type)` of `DataSourceDOS::get_sprite_parts`
(data-source-dos.cc:272-294): decode `data` according to the catalog row's
encoding; the sprite is returned in the image slot, the default (Unknown) case
returns the empty pair. -/
def decode_switch (t : SpriteType) (data : List Nat) (palette : Nat → ColorDOS) :
    Except DecodeError (Option Sprite × Option Sprite) :=
  match t with
  | .SpriteTypeSolid =>
    match SpriteDosSolid data palette with
    | .error e => .error e
    | .ok s => .ok (none, some s)
  | .SpriteTypeTransparent =>
    match SpriteDosTransparent data palette 0 with
    | .error e => .error e
    | .ok s => .ok (none, some s)
  | .SpriteTypeOverlay =>
    match SpriteDosOverlay data palette 0x80 with
    | .error e => .error e
    | .ok s => .ok (none, some s)
  | .SpriteTypeMask =>
    match SpriteDosMask data with
    | .error e => .error e
    | .ok s => .ok (none, some s)
  | .SpriteTypeUnknown => .ok (none, none)

/-- `DataSourceDOS::get_sprite_parts` (data-source-dos.cc:206-295).
`cnt` stands for `Data::get_resource_count` (data.cc is not among the provided
sources), passed as a parameter.  A `.ok (none, none)` result is the
"Unavailable" outcome; decode exceptions surface as `.error` (the original has
no try/catch in this function).  In the serf-torso branch the original passes
a possibly-null buffer to the arms decoder; that null dereference is modelled
as `.error .nullDeref`.  The image returned for the torso is the torso sprite
after `stick`, because the original mutates the shared torso object that
`separate_sprites` placed in the returned tuple. -/
def get_sprite_parts (cnt : Resource → Nat) (s : DataSourceState)
    (res : Resource) (index : Nat) :
    Except DecodeError (Option Sprite × Option Sprite) :=
  if index ≥ cnt res then .ok (none, none)
  else
    let dos_res := dos_resources res
    match get_dos_palette s dos_res.dos_palette with
    | none => .ok (none, none)
    | some palette =>
      if res = .AssetSerfTorso then
        match get_object s (dos_res.index + index) with
        | none => .ok (none, none)
        | some data =>
          match SpriteDosTransparent data palette 64 with
          | .error e => .error e
          | .ok torso =>
            match get_object s (dos_res.index + index) with
            | none => .ok (none, none)
            | some data2 =>
              match SpriteDosTransparent data2 palette 72 with
              | .error e => .error e
              | .ok torso2 =>
                let mi := separate_sprites torso torso2
                match get_object s (1850 + index) with
                | none => .error .nullDeref
                | some data3 =>
                  match SpriteDosTransparent data3 palette 0 with
                  | .error e => .error e
                  | .ok arms => .ok (mi.1, (mi.2).map (fun t => stick t arms))
      else if res = .AssetMapObject ∧ 128 ≤ index ∧ index ≤ 143 then
        match get_object s (dos_res.index + 128 + (index - 128) % 4) with
        | none => .ok (none, none)
        | some data =>
          match SpriteDosTransparent data palette 0 with
          | .error e => .error e
          | .ok s1 =>
            match get_object s (dos_res.index + 128 + 4 + (index - 128) % 4) with
            | none => .ok (none, none)
            | some data2 =>
              match SpriteDosTransparent data2 palette 0 with
              | .error e => .error e
              | .ok s2 => .ok (separate_sprites s1 s2)
      else if res = .AssetFont ∨ res = .AssetFontShadow then
        match get_object s (dos_res.index + index) with
        | none => .ok (none, none)
        | some data =>
          match SpriteDosTransparent data palette 0 with
          | .error e => .error e
          | .ok sp => .ok (some sp, none)
      else
        match get_object s (dos_res.index + index) with
        | none => .ok (none, none)
        | some data => decode_switch dos_res.sprite_type data palette

/-- Inner loop of the first fixup (data-source-dos.cc:189-193): for a given
`i`, iterations `j = 1, …, m` assign `entries[3450+6*i+j] := entries[3450+6*i]`. -/
def fixup1Inner (e : List DataEntry) (i : Nat) : Nat → List DataEntry
  | 0 => e
  | j + 1 =>
    let e2 := fixup1Inner e i j
    e2.set (3450 + 6 * i + (j + 1)) (e2.getD (3450 + 6 * i) ⟨0, 0⟩)

/-- Outer loop of the first fixup: iterations `i = 0, …, k-1`. -/
def fixup1 (e : List DataEntry) : Nat → List DataEntry
  | 0 => e
  | k + 1 => fixup1Inner (fixup1 e k) k 5

/-- Second fixup loop (data-source-dos.cc:195-197):
`entries[3765+i] := entries[3762+i]` for `i = 0, …, k-1`. -/
def fixup2 (e : List DataEntry) : Nat → List DataEntry
  | 0 => e
  | k + 1 =>
    let e2 := fixup2 e k
    e2.set (3765 + k) (e2.getD (3762 + k) ⟨0, 0⟩)

/-- Third fixup loop (data-source-dos.cc:199-202):
`entries[1363+i] := entries[1352]; entries[1613+i] := entries[1602]`. -/
def fixup3 (e : List DataEntry) : Nat → List DataEntry
  | 0 => e
  | k + 1 =>
    let e2 := fixup3 e k
    let e3 := e2.set (1363 + k) (e2.getD 1352 ⟨0, 0⟩)
    e3.set (1613 + k) (e3.getD 1602 ⟨0, 0⟩)

/-- `DataSourceDOS::fixup` (data-source-dos.cc:184-203): the three loops in
order, with their original bounds 48, 3 and 6. -/
def fixup (e : List DataEntry) : List DataEntry :=
  fixup3 (fixup2 (fixup1 e 48) 3) 6

/-- State of the `Collection` template (objects.h): the key set of the
`objects` map, the `last_object_index` counter and the `free_object_indexes`
set.  The stored `T*` values play no role in the indexing discipline. -/
structure Collection where
  objects : Finset ℕ
  last_object_index : ℕ
  free_object_indexes : Finset ℕ
deriving DecidableEq

/-- `Collection()` constructor: `last_object_index = 0`, empty containers. -/
def Collection.empty : Collection := ⟨∅, 0, ∅⟩

/-- `UINT_MAX` for the 32-bit `unsigned int` indices of objects.h. -/
def UINT_MAX : ℕ := 4294967295

/-- `Collection::allocate` (objects.h:66-86): reuse the smallest free index if
any, else hand out `last_object_index` and increment it (returning NULL — here
`none` — when the counter is exhausted); the chosen index is inserted into the
objects map.  Returns the new state and the allocated index. -/
def Collection.allocate (c : Collection) : Collection × Option ℕ :=
  if h : c.free_object_indexes.Nonempty then
    let new_index := c.free_object_indexes.min' h
    ({ objects := insert new_index c.objects,
       last_object_index := c.last_object_index,
       free_object_indexes := c.free_object_indexes.erase new_index }, some new_index)
  else if c.last_object_index = UINT_MAX then (c, none)
  else
    ({ objects := insert c.last_object_index c.objects,
       last_object_index := c.last_object_index + 1,
       free_object_indexes := c.free_object_indexes }, some c.last_object_index)

/-- The loop `for (i = last_object_index; i < index; i++)
free_object_indexes.insert(index)` of `Collection::get_or_insert`
(objects.h:110-112), by its iteration count: note the original inserts
`index`, not `i`, on every iteration. -/
def Collection.goiLoop (free : Finset ℕ) (index : ℕ) : ℕ → Finset ℕ
  | 0 => free
  | n + 1 => insert index (Collection.goiLoop free index n)

/-- `Collection::get_or_insert` (objects.h:93-117): insert the object at
`index` if absent (also erasing `index` from the free set), then, when
`last_object_index ≤ index`, run the free-set loop and set
`last_object_index := index + 1` (32-bit wrap-around preserved). -/
def Collection.get_or_insert (c : Collection) (index : ℕ) : Collection :=
  let c1 :=
    if index ∈ c.objects then c
    else { c with objects := insert index c.objects,
                  free_object_indexes := c.free_object_indexes.erase index }
  if c1.last_object_index ≤ index then
    { c1 with
      free_object_indexes :=
        Collection.goiLoop c1.free_object_indexes index (index - c1.last_object_index),
      last_object_index := (index + 1) % (UINT_MAX + 1) }
  else c1

/-- `Collection::erase` (objects.h:168-185): remove the object if present;
then either decrement `last_object_index` (when it equals the erased index;
32-bit wrap-around preserved) or record the index as free. -/
def Collection.erase (c : Collection) (index : ℕ) : Collection :=
  if index ∉ c.objects then c
  else
    let c1 := { c with objects := c.objects.erase index }
    if index = c1.last_object_index then
      { c1 with last_object_index := (c1.last_object_index + UINT_MAX) % (UINT_MAX + 1) }
    else
      { c1 with free_object_indexes := insert index c1.free_object_indexes }

instance {e a : Type} [DecidableEq e] [DecidableEq a] : DecidableEq (Except e a) := fun
  | .error e1, .error e2 =>
    if h : e1 = e2 then .isTrue (by rw [h]) else .isFalse (fun hc => by cases hc; exact h rfl)
  | .ok a1, .ok a2 =>
    if h : a1 = a2 then .isTrue (by rw [h]) else .isFalse (fun hc => by cases hc; exact h rfl)
  | .error _, .ok _ => .isFalse (fun hc => by cases hc)
  | .ok _, .error _ => .isFalse (fun hc => by cases hc)

/-- A resource-count table for the concrete archives below (stands for
`Data::get_resource_count`, large enough for every request made here). -/
def cnt0 : Resource → Nat := fun _ => 4000

/-- A well-formed Transparent sprite range: width 1, height 1, one run with
drop 2 and fill 0. -/
def okTrans : List Nat := [0, 0, 1, 0, 1, 0, 0, 0, 0, 0, 2, 0]

/-- A second well-formed Transparent sprite range: one run with drop 1, fill 0. -/
def okTrans2 : List Nat := [0, 0, 1, 0, 1, 0, 0, 0, 0, 0, 1, 0]

/-- Archive bytes for the serf-torso scenario: pad byte, a valid Transparent
torso sprite at offset 1, palette at offset 13. -/
def spae2 : List Nat := 0 :: (okTrans ++ List.replicate 768 0)

/-- Concrete archive for the serf-torso scenario: entry 3 is the palette,
entry 2500 (the torso base) is a valid sprite, entry 1850 (the arms base) is
absent (offset 0). -/
def S2 : DataSourceState :=
  { entries := ((List.replicate 2501 (⟨0, 0⟩ : DataEntry)).set 3 ⟨768, 13⟩).set 2500 ⟨12, 1⟩,
    spae := spae2 }

/-- The palette resolved from `S2`. -/
def pal2 : Nat → ColorDOS :=
  fun i => ⟨((spae2.drop 13).take 768).getD (3 * i) 0,
            ((spae2.drop 13).take 768).getD (3 * i + 1) 0,
            ((spae2.drop 13).take 768).getD (3 * i + 2) 0⟩

/-- The sprite decoded from `okTrans`: 8 transparent zero bytes. -/
def okTransSprite : Sprite := ⟨0, 0, 1, 1, 0, 0, List.replicate 8 0⟩

/-- The sprite decoded from `okTrans2`: 4 transparent zero bytes. -/
def okTrans2Sprite : Sprite := ⟨0, 0, 1, 1, 0, 0, List.replicate 4 0⟩

/-- Archive bytes for the map-object flag scenario: pad byte, two valid
Transparent sprites at offsets 1 and 13, palette at offset 25. -/
def spae8 : List Nat := 0 :: (okTrans ++ (okTrans2 ++ List.replicate 768 0))

/-- Concrete archive for the map-object flag scenario: entry 3 is the palette,
entries 1378 = 1250 + 128 and 1382 = 1250 + 128 + 4 are the two flag-frame
sprites for flag frame 0. -/
def S8 : DataSourceState :=
  { entries :=
      (((List.replicate 1390 (⟨0, 0⟩ : DataEntry)).set 3 ⟨768, 25⟩).set
          1378 ⟨12, 1⟩).set 1382 ⟨12, 13⟩,
    spae := spae8 }

/-- The palette resolved from `S8`. -/
def pal8 : Nat → ColorDOS :=
  fun i => ⟨((spae8.drop 25).take 768).getD (3 * i) 0,
            ((spae8.drop 25).take 768).getD (3 * i + 1) 0,
            ((spae8.drop 25).take 768).getD (3 * i + 2) 0⟩

/-- A palette function constant zero everywhere, used as a small witness. -/
def palZero : Nat → ColorDOS := fun _ => ⟨0, 0, 0⟩

/-- A palette agreeing with `palZero` on all 256 in-range entries but
differing at entry 327 = 255 + 72. -/
def palHigh : Nat → ColorDOS := fun i => if i = 327 then ⟨9, 9, 9⟩ else ⟨0, 0, 0⟩

/-- A palette whose entry 5 is (10, 20, 30), zero elsewhere. -/
def palC6 : Nat → ColorDOS := fun i => if i = 5 then ⟨10, 20, 30⟩ else ⟨0, 0, 0⟩

/-- A Transparent sprite range whose single run pops palette-index byte 255:
with color offset 72 the lookup lands at 327, beyond the 256-entry palette. -/
def transHigh : List Nat := [0, 0, 1, 0, 1, 0, 0, 0, 0, 0, 0, 1, 255]

/-- A Transparent sprite range: header (width 3, height 1) followed by the
run-length body drop 2, fill 1, color index 5. -/
def transC6 : List Nat := [0, 0, 3, 0, 1, 0, 0, 0, 0, 0, 2, 1, 5]

/-- Predicate: every 4-byte pixel of an RGBA stream has alpha byte 255. -/
def allPixelsOpaque : List Nat → Bool
  | _ :: _ :: _ :: a :: rest => (a == 255) && allPixelsOpaque rest
  | _ => true

/-- A data source with a single in-bounds entry, used as a witness. -/
def S7 : DataSourceState := { entries := [⟨2, 1⟩], spae := [0, 9, 9] }

/-- A well-formed Solid sprite range: width 1, height 1, one body byte. -/
def okSolid : List Nat := [0, 0, 1, 0, 1, 0, 0, 0, 0, 0, 7]

/-- The sprite decoded from `okSolid` under `palZero`. -/
def okSolidSprite : Sprite := ⟨0, 0, 1, 1, 0, 0, [0, 0, 0, 255]⟩

/-- An all-default index table of length 3768 (large enough for every
position touched by `fixup`), used as a concrete fixup input. -/
def e4 : List DataEntry := List.replicate 3768 ⟨0, 0⟩

set_option maxRecDepth 40000

theorem hS2len : S2.entries.length = 2501 := by simp [S2]

theorem hS2entry2500 : S2.entries.getD 2500 ⟨0, 0⟩ = ⟨12, 1⟩ := by
  simp only [S2, List.getD_eq_getElem?_getD]
  rw [List.getElem?_set_self (by simp)]
  rfl

theorem hS2entry1850 : S2.entries.getD 1850 ⟨0, 0⟩ = ⟨0, 0⟩ := by
  simp only [S2, List.getD_eq_getElem?_getD]
  rw [List.getElem?_set_ne (by decide), List.getElem?_set_ne (by decide),
    List.getElem?_replicate_of_lt (by decide)]
  rfl

theorem hS2entry3 : S2.entries.getD 3 ⟨0, 0⟩ = ⟨768, 13⟩ := by
  simp only [S2, List.getD_eq_getElem?_getD]
  rw [List.getElem?_set_ne (by decide), List.getElem?_set_self (by simp)]
  rfl

theorem hS2torso : get_object S2 2500 = some okTrans := by
  simp only [get_object, hS2len, hS2entry2500]
  norm_num
  rfl

theorem hS2arms : get_object S2 1850 = none := by
  simp only [get_object, hS2len, hS2entry1850]
  norm_num

theorem hS2palobj : get_object S2 3 = some ((spae2.drop 13).take 768) := by
  simp only [get_object, hS2len, hS2entry3]
  norm_num
  rfl

theorem hS2pal : get_dos_palette S2 3 = some pal2 := by
  simp only [get_dos_palette, hS2palobj]
  rfl

theorem hdec64 : SpriteDosTransparent okTrans pal2 64 = .ok okTransSprite := by
  simp [SpriteDosTransparent, SpriteBaseDOS, transBody, fillPixels, okTrans, okTransSprite,
    toInt8, toInt16]

theorem hdec72 : SpriteDosTransparent okTrans pal2 72 = .ok okTransSprite := by
  simp [SpriteDosTransparent, SpriteBaseDOS, transBody, fillPixels, okTrans, okTransSprite,
    toInt8, toInt16]

theorem hS8len : S8.entries.length = 1390 := by simp [S8]

theorem hS8entry1378 : S8.entries.getD 1378 ⟨0, 0⟩ = ⟨12, 1⟩ := by
  simp only [S8, List.getD_eq_getElem?_getD]
  rw [List.getElem?_set_ne (by decide), List.getElem?_set_self (by simp)]
  rfl

theorem hS8entry1382 : S8.entries.getD 1382 ⟨0, 0⟩ = ⟨12, 13⟩ := by
  simp only [S8, List.getD_eq_getElem?_getD]
  rw [List.getElem?_set_self (by simp)]
  rfl

theorem hS8entry3 : S8.entries.getD 3 ⟨0, 0⟩ = ⟨768, 25⟩ := by
  simp only [S8, List.getD_eq_getElem?_getD]
  rw [List.getElem?_set_ne (by decide), List.getElem?_set_ne (by decide),
    List.getElem?_set_self (by simp)]
  rfl

theorem hS8obj1378 : get_object S8 1378 = some okTrans := by
  simp only [get_object, hS8len, hS8entry1378]
  norm_num
  rfl

theorem hS8obj1382 : get_object S8 1382 = some okTrans2 := by
  simp only [get_object, hS8len, hS8entry1382]
  norm_num
  rfl

theorem hS8palobj : get_object S8 3 = some ((spae8.drop 25).take 768) := by
  simp only [get_object, hS8len, hS8entry3]
  norm_num
  rfl

theorem hS8pal : get_dos_palette S8 3 = some pal8 := by
  simp only [get_dos_palette, hS8palobj]
  rfl

theorem hdec8a : SpriteDosTransparent okTrans pal8 0 = .ok okTransSprite := by
  simp [SpriteDosTransparent, SpriteBaseDOS, transBody, fillPixels, okTrans, okTransSprite,
    toInt8, toInt16]

theorem hdec8b : SpriteDosTransparent okTrans2 pal8 0 = .ok okTrans2Sprite := by
  simp [SpriteDosTransparent, SpriteBaseDOS, transBody, fillPixels, okTrans2, okTrans2Sprite,
    toInt8, toInt16]

theorem solidPixels_length (pal : Nat → ColorDOS) (l : List Nat) :
    (solidPixels pal l).length = 4 * l.length := by
  induction l with
  | nil => rfl
  | cons b rest ih => simp [solidPixels, ih]; omega

theorem allPixelsOpaque_solidPixels (pal : Nat → ColorDOS) (l : List Nat) :
    allPixelsOpaque (solidPixels pal l) = true := by
  induction l with
  | nil => rfl
  | cons b rest ih => simp [solidPixels, allPixelsOpaque, ih]

/-- C2 counterexample: on a concrete archive whose serf-torso entry decodes
successfully under both color offsets but whose arms entry (1850 + index) is
absent, `get_sprite_parts` does not return the composited torso pair: it
aborts with the null-dereference outcome of handing the null arms buffer to
the sprite constructor. -/
theorem c2_counterexample :
    get_sprite_parts cnt0 S2 .AssetSerfTorso 0 = .error .nullDeref ∧
    (SpriteDosTransparent okTrans pal2 64).isOk = true ∧
    (SpriteDosTransparent okTrans pal2 72).isOk = true ∧
    get_object S2 (2500 + 0) = some okTrans := by
  refine ⟨?_, ?_, ?_, ?_⟩
  · simp [get_sprite_parts, dos_resources, cnt0, hS2pal, hS2torso, hdec64, hdec72, hS2arms]
  · rw [hdec64]; rfl
  · rw [hdec72]; rfl
  · simpa using hS2torso

/-- C2 (amended): for every serf-torso request where the two torso variant
decodes succeed, a failure to obtain or decode the arms overlay aborts the
request: a missing arms object is a null dereference, and a malformed arms
range propagates its decode error; the torso result is not returned. -/
theorem c2_amended (cnt : Resource → Nat) (s : DataSourceState) (index : Nat)
    (pal : Nat → ColorDOS) (d : List Nat) (t1 t2 : Sprite)
    (h1 : index < cnt .AssetSerfTorso)
    (hpal : get_dos_palette s 3 = some pal)
    (hobj : get_object s (2500 + index) = some d)
    (ht1 : SpriteDosTransparent d pal 64 = .ok t1)
    (ht2 : SpriteDosTransparent d pal 72 = .ok t2) :
    (get_object s (1850 + index) = none →
      get_sprite_parts cnt s .AssetSerfTorso index = .error .nullDeref) ∧
    (∀ d3 e, get_object s (1850 + index) = some d3 →
      SpriteDosTransparent d3 pal 0 = .error e →
      get_sprite_parts cnt s .AssetSerfTorso index = .error e) := by
  constructor
  · intro harms
    simp [get_sprite_parts, dos_resources, Nat.not_le.mpr h1, hpal, hobj, ht1, ht2, harms]
  · intro d3 e harms hdec
    simp [get_sprite_parts, dos_resources, Nat.not_le.mpr h1, hpal, hobj, ht1, ht2, harms, hdec]

/-- C2 witness: the amended theorem applied to the concrete torso archive with
an absent arms entry. -/
theorem c2_amended_witness :
    0 < cnt0 .AssetSerfTorso ∧ get_object S2 (1850 + 0) = none ∧
    get_sprite_parts cnt0 S2 .AssetSerfTorso 0 = .error .nullDeref :=
  ⟨by decide, hS2arms,
   (c2_amended cnt0 S2 0 pal2 okTrans okTransSprite okTransSprite (by decide)
      hS2pal hS2torso hdec64 hdec72).1 hS2arms⟩

/-- C3 counterexample: an 8-byte animation-table resource whose big-endian
prefix is 8 (the total size, not the remaining 4 bytes) is accepted by the
load step, although the prefix differs from the byte count remaining after
the prefix — so the claimed validation rule is not the implemented one. -/
theorem c3_counterexample :
    load_animation_step [0, 0, 0, 8, 1, 2, 3, 4] = some [1, 2, 3, 4] ∧
    (8 : Nat) ≠ ([1, 2, 3, 4] : List Nat).length := by decide

/-- C3 (amended): the load step validates that the big-endian 4-byte prefix
equals the TOTAL byte count of the table resource (its own four bytes
included): on equality it returns exactly the remainder after the prefix, on
mismatch it fails; a resource shorter than 4 bytes also fails. -/
theorem c3_amended :
    (∀ (b0 b1 b2 b3 : Nat) (rest : List Nat),
      load_animation_step (b0 :: b1 :: b2 :: b3 :: rest) =
        if (b0 :: b1 :: b2 :: b3 :: rest : List Nat).length =
            ((b0 * 256 + b1) * 256 + b2) * 256 + b3
        then some rest else none) ∧
    (∀ (anim : List Nat), anim.length < 4 → load_animation_step anim = none) := by
  constructor
  · intro b0 b1 b2 b3 rest
    simp only [load_animation_step, pop32BE]
    by_cases h : (b0 :: b1 :: b2 :: b3 :: rest : List Nat).length =
        ((b0 * 256 + b1) * 256 + b2) * 256 + b3
    · simp [h]
    · simp [h]
  · intro anim h
    rcases anim with _ | ⟨a, _ | ⟨b, _ | ⟨c, _ | ⟨d, rest⟩⟩⟩⟩
    · rfl
    · rfl
    · rfl
    · rfl
    · simp at h; omega

/-- C3 witness: the amended theorem applied to a matching 8-byte resource and
to the empty resource. -/
theorem c3_amended_witness :
    load_animation_step [0, 0, 0, 8, 1, 2, 3, 4] = some [1, 2, 3, 4] ∧
    load_animation_step [] = none := by
  constructor
  · rw [c3_amended.1 0 0 0 8 [1, 2, 3, 4]]
    norm_num
  · exact c3_amended.2 [] (by decide)

/-- C5: a Solid decode succeeds exactly on ranges whose total size is
`width * height + 10`; a successful decode emits `width * height` pixels
(4 bytes each, so `4 * width * height` bytes), all opaque (alpha 255); a
header-consistent range of any other total size fails, as does a range
shorter than the 10-byte header. -/
theorem c5_solid (d : List Nat) (palette : Nat → ColorDOS) :
    (∀ s, SpriteDosSolid d palette = .ok s →
      d.length = s.width * s.height + 10 ∧
      s.pixels.length = 4 * (s.width * s.height) ∧
      allPixelsOpaque s.pixels = true) ∧
    (∀ base rest, SpriteBaseDOS d = .ok (base, rest) →
      d.length ≠ base.width * base.height + 10 →
      (SpriteDosSolid d palette).isOk = false) ∧
    (d.length < 10 → (SpriteDosSolid d palette).isOk = false) := by
  refine ⟨?_, ?_, ?_⟩
  · intro s h
    by_cases hlen : d.length < 10
    · simp [SpriteDosSolid, SpriteBaseDOS, hlen] at h
    · simp only [SpriteDosSolid, SpriteBaseDOS, hlen, if_false] at h
      split at h
      · simp at h
      · rename_i hsz
        push_neg at hsz
        rw [Except.ok.injEq] at h
        subst h
        refine ⟨hsz, ?_, allPixelsOpaque_solidPixels palette _⟩
        simp only [solidPixels_length, List.length_drop]
        omega
  · intro base rest hb hne
    by_cases hlen : d.length < 10
    · simp only [SpriteDosSolid, SpriteBaseDOS, hlen, if_true]
      rfl
    · simp only [SpriteBaseDOS, hlen, if_false, Except.ok.injEq, Prod.mk.injEq] at hb
      obtain ⟨hb1, -⟩ := hb
      subst hb1
      simp only [SpriteDosSolid, SpriteBaseDOS, hlen, if_false]
      rw [if_pos hne]
      rfl
  · intro hlen
    simp only [SpriteDosSolid, SpriteBaseDOS, hlen, if_true]
    rfl

/-- C5 witness: the theorem applied to a well-formed 11-byte Solid range of
width 1, height 1. -/
theorem c5_witness :
    SpriteDosSolid okSolid palZero = .ok okSolidSprite ∧
    okSolid.length = okSolidSprite.width * okSolidSprite.height + 10 ∧
    okSolidSprite.pixels.length = 4 * (okSolidSprite.width * okSolidSprite.height) ∧
    allPixelsOpaque okSolidSprite.pixels = true :=
  ⟨by decide, (c5_solid okSolid palZero).1 okSolidSprite (by decide)⟩

/-- C6: decoding the Transparent stream whose body is drop 2, fill 1, color
index 5, at color offset 0, against any palette whose entry 5 is
(r 10, g 20, b 30), yields exactly three pixels: two fully transparent zero
pixels followed by one opaque pixel emitted in blue, green, red, alpha order
as 30, 20, 10, 255. -/
theorem c6_transparent_roundtrip (pal : Nat → ColorDOS) (h : pal 5 = ⟨10, 20, 30⟩) :
    SpriteDosTransparent transC6 pal 0 =
      .ok ⟨0, 0, 3, 1, 0, 0, [0, 0, 0, 0, 0, 0, 0, 0, 30, 20, 10, 255]⟩ := by
  simp [SpriteDosTransparent, SpriteBaseDOS, transC6, transBody, fillPixels, h, toInt8, toInt16]

/-- C6 witness: the theorem applied to the concrete palette `palC6`. -/
theorem c6_witness :
    palC6 5 = ⟨10, 20, 30⟩ ∧
    SpriteDosTransparent transC6 palC6 0 =
      .ok ⟨0, 0, 3, 1, 0, 0, [0, 0, 0, 0, 0, 0, 0, 0, 30, 20, 10, 255]⟩ :=
  ⟨by decide, c6_transparent_roundtrip palC6 (by decide)⟩

/-- C7: `get_object` returns none exactly when the index is outside the table
or the entry's offset is zero, and any returned byte range has exactly the
entry's declared size (stated for archives whose entry ranges lie within the
buffer, since the spec-modelled `get_subbuffer` rejects out-of-range
requests). -/
theorem c7_get_object (s : DataSourceState) (index : Nat)
    (h : (s.entries.getD index ⟨0, 0⟩).offset ≠ 0 →
      (s.entries.getD index ⟨0, 0⟩).offset + (s.entries.getD index ⟨0, 0⟩).size ≤
        s.spae.length) :
    (get_object s index = none ↔
      s.entries.length ≤ index ∨ (s.entries.getD index ⟨0, 0⟩).offset = 0) ∧
    (∀ b, get_object s index = some b → b.length = (s.entries.getD index ⟨0, 0⟩).size) := by
  simp only [List.getD_eq_getElem?_getD] at h ⊢
  by_cases hb : index ≥ s.entries.length
  · constructor
    · simp [get_object, hb]
    · intro b hob
      simp [get_object, hb] at hob
  · by_cases hoff : (s.entries[index]?.getD ⟨0, 0⟩).offset = 0
    · constructor
      · simp [get_object, hb, hoff]
      · intro b hob
        simp [get_object, hb, hoff] at hob
    · have hrange := h hoff
      constructor
      · simp [get_object, get_subbuffer, hb, hoff, hrange]
      · intro b hob
        simp only [get_object, List.getD_eq_getElem?_getD, get_subbuffer, hb, if_false,
          hoff, if_pos hrange] at hob
        rw [Option.some.injEq] at hob
        subst hob
        simp only [List.length_take, List.length_drop]
        omega

/-- C7 witness: the theorem applied to a one-entry archive. -/
theorem c7_witness :
    get_object S7 0 = some [9, 9] ∧
    ([9, 9] : List Nat).length = (S7.entries.getD 0 ⟨0, 0⟩).size :=
  ⟨by decide, (c7_get_object S7 0 (by decide)).2 [9, 9] (by decide)⟩

/-- C8: for the map-object kind and every index in the flag sub-range
128..143, when the palette, the two byte ranges (at the map-object base plus
128 plus the flag frame `(index - 128) % 4`, and four entries further) and
their two Transparent decodes all resolve, `get_sprite_parts` returns exactly
`separate_sprites` applied to the decoded pair. -/
theorem c8_flag_frames (cnt : Resource → Nat) (s : DataSourceState) (index : Nat)
    (pal : Nat → ColorDOS) (d1 d2 : List Nat) (s1 s2 : Sprite)
    (h1 : 128 ≤ index) (h2 : index ≤ 143) (h3 : index < cnt .AssetMapObject)
    (hpal : get_dos_palette s 3 = some pal)
    (hd1 : get_object s (1250 + 128 + (index - 128) % 4) = some d1)
    (hd2 : get_object s (1250 + 128 + 4 + (index - 128) % 4) = some d2)
    (hs1 : SpriteDosTransparent d1 pal 0 = .ok s1)
    (hs2 : SpriteDosTransparent d2 pal 0 = .ok s2) :
    get_sprite_parts cnt s .AssetMapObject index = .ok (separate_sprites s1 s2) := by
  simp [get_sprite_parts, dos_resources, Nat.not_le.mpr h3, h1, h2,
    hpal, hd1, hd2, hs1, hs2]

/-- C8 witness: the theorem applied to the concrete map-object archive at
index 128 (flag frame 0). -/
theorem c8_witness :
    (128 : Nat) ≤ 128 ∧ (128 : Nat) ≤ 143 ∧
    get_sprite_parts cnt0 S8 .AssetMapObject 128 =
      .ok (separate_sprites okTransSprite okTrans2Sprite) :=
  ⟨by decide, by decide,
   c8_flag_frames cnt0 S8 128 pal8 okTrans okTrans2 okTransSprite okTrans2Sprite
     (by decide) (by decide) (by decide) hS8pal hS8obj1378 hS8obj1382 hdec8a hdec8b⟩

/-- C9: the Transparent decoder applies the color offset as a raw addition
with no bounds check: decoding a stream whose fill byte is 255 at color
offset 72 reads the palette at index 255 + 72 = 327, beyond the 256-entry
palette — two palettes agreeing on every index below 256 give different
decodes. -/
theorem c9_overflow :
    (∀ pal : Nat → ColorDOS,
      SpriteDosTransparent transHigh pal 72 =
        .ok ⟨0, 0, 1, 1, 0, 0, [(pal (255 + 72)).b, (pal (255 + 72)).g,
          (pal (255 + 72)).r, 255]⟩) ∧
    (∀ i, i < 256 → palZero i = palHigh i) ∧
    SpriteDosTransparent transHigh palZero 72 ≠ SpriteDosTransparent transHigh palHigh 72 ∧
    255 < 255 + 72 := by
  have h1 : ∀ pal : Nat → ColorDOS,
      SpriteDosTransparent transHigh pal 72 =
        .ok ⟨0, 0, 1, 1, 0, 0, [(pal (255 + 72)).b, (pal (255 + 72)).g,
          (pal (255 + 72)).r, 255]⟩ := by
    intro pal
    simp [SpriteDosTransparent, SpriteBaseDOS, transHigh, transBody, fillPixels,
      toInt8, toInt16]
  refine ⟨h1, ?_, ?_, by omega⟩
  · intro i hi
    simp only [palZero, palHigh]
    rw [if_neg (by omega)]
  · rw [h1 palZero, h1 palHigh]
    simp [palZero, palHigh]

/-- C9 witness: the palettes of the theorem agree at in-range index 0. -/
theorem c9_witness : palZero 0 = palHigh 0 := c9_overflow.2.1 0 (by decide)

theorem fixup1Inner_length (e : List DataEntry) (i m : Nat) :
    (fixup1Inner e i m).length = e.length := by
  induction m with
  | zero => rfl
  | succ m ih => simp only [fixup1Inner, List.length_set]; exact ih

theorem fixup1_length (e : List DataEntry) (k : Nat) :
    (fixup1 e k).length = e.length := by
  induction k with
  | zero => rfl
  | succ k ih => simp only [fixup1, fixup1Inner_length]; exact ih

theorem fixup2_length (e : List DataEntry) (k : Nat) :
    (fixup2 e k).length = e.length := by
  induction k with
  | zero => rfl
  | succ k ih => simp only [fixup2, List.length_set]; exact ih

theorem fixup3_length (e : List DataEntry) (k : Nat) :
    (fixup3 e k).length = e.length := by
  induction k with
  | zero => rfl
  | succ k ih => simp only [fixup3, List.length_set]; exact ih

theorem fixup1Inner_get_ne (e : List DataEntry) (i m n : Nat)
    (hn : ∀ j, 1 ≤ j → j ≤ m → n ≠ 3450 + 6 * i + j) :
    (fixup1Inner e i m)[n]? = e[n]? := by
  induction m with
  | zero => rfl
  | succ m ih =>
    simp only [fixup1Inner]
    rw [List.getElem?_set_ne (by have := hn (m + 1) (by omega) (by omega); omega)]
    exact ih (fun j hj1 hjm => hn j hj1 (by omega))

theorem fixup1Inner_get_written (e : List DataEntry) (i m j : Nat)
    (hlen : 3450 + 6 * i + m < e.length) (hj1 : 1 ≤ j) (hjm : j ≤ m) :
    (fixup1Inner e i m)[3450 + 6 * i + j]? = e[3450 + 6 * i]? := by
  induction m with
  | zero => omega
  | succ m ih =>
    simp only [fixup1Inner]
    by_cases hcase : j = m + 1
    · subst hcase
      rw [List.getElem?_set_self (by rw [fixup1Inner_length]; omega)]
      rw [List.getD_eq_getElem?_getD,
        fixup1Inner_get_ne e i m _ (fun j' hj1' hjm' => by omega),
        List.getElem?_eq_getElem (by omega)]
      rfl
    · rw [List.getElem?_set_ne (by omega)]
      exact ih (by omega) (by omega)

theorem fixup1_get_ne (e : List DataEntry) (k n : Nat)
    (hn : ∀ i j, i < k → 1 ≤ j → j < 6 → n ≠ 3450 + 6 * i + j) :
    (fixup1 e k)[n]? = e[n]? := by
  induction k with
  | zero => rfl
  | succ k ih =>
    simp only [fixup1]
    rw [fixup1Inner_get_ne _ _ _ _ (fun j hj1 hjm => hn k j (by omega) hj1 (by omega))]
    exact ih (fun i j hi hj1 hj6 => hn i j (by omega) hj1 hj6)

theorem fixup1_get_written (e : List DataEntry) (k i j : Nat)
    (hlen : 3768 ≤ e.length) (hik : i < k) (hk : k ≤ 48) (hj1 : 1 ≤ j) (hj6 : j < 6) :
    (fixup1 e k)[3450 + 6 * i + j]? = e[3450 + 6 * i]? := by
  induction k with
  | zero => omega
  | succ k ih =>
    simp only [fixup1]
    by_cases hcase : i = k
    · subst hcase
      rw [fixup1Inner_get_written _ _ _ _ (by rw [fixup1_length]; omega) hj1 (by omega)]
      exact fixup1_get_ne e i _ (fun i' j' hi' hj1' hj6' => by omega)
    · rw [fixup1Inner_get_ne _ _ _ _ (fun j' hj1' hjm' => by omega)]
      exact ih (by omega) (by omega)

theorem fixup2_get_ne (e : List DataEntry) (k n : Nat)
    (hn : ∀ i, i < k → n ≠ 3765 + i) :
    (fixup2 e k)[n]? = e[n]? := by
  induction k with
  | zero => rfl
  | succ k ih =>
    simp only [fixup2]
    rw [List.getElem?_set_ne (by have := hn k (by omega); omega)]
    exact ih (fun i hi => hn i (by omega))

theorem fixup2_get_written (e : List DataEntry) (k i : Nat)
    (hlen : 3768 ≤ e.length) (hik : i < k) (hk : k ≤ 3) :
    (fixup2 e k)[3765 + i]? = e[3762 + i]? := by
  induction k with
  | zero => omega
  | succ k ih =>
    simp only [fixup2]
    by_cases hcase : i = k
    · subst hcase
      rw [List.getElem?_set_self (by rw [fixup2_length]; omega)]
      rw [List.getD_eq_getElem?_getD,
        fixup2_get_ne e i _ (fun i' hi' => by omega),
        List.getElem?_eq_getElem (by omega)]
      rfl
    · rw [List.getElem?_set_ne (by omega)]
      exact ih (by omega) (by omega)

theorem fixup3_get_ne (e : List DataEntry) (k n : Nat)
    (hn : ∀ i, i < k → n ≠ 1363 + i ∧ n ≠ 1613 + i) :
    (fixup3 e k)[n]? = e[n]? := by
  induction k with
  | zero => rfl
  | succ k ih =>
    simp only [fixup3]
    rw [List.getElem?_set_ne (by have := hn k (by omega); omega),
      List.getElem?_set_ne (by have := hn k (by omega); omega)]
    exact ih (fun i hi => hn i (by omega))

theorem fixup3_get_written_a (e : List DataEntry) (k i : Nat)
    (hlen : 3768 ≤ e.length) (hik : i < k) (hk : k ≤ 6) :
    (fixup3 e k)[1363 + i]? = e[1352]? := by
  induction k with
  | zero => omega
  | succ k ih =>
    simp only [fixup3]
    by_cases hcase : i = k
    · subst hcase
      rw [List.getElem?_set_ne (by omega)]
      rw [List.getElem?_set_self (by rw [fixup3_length]; omega)]
      rw [List.getD_eq_getElem?_getD,
        fixup3_get_ne e i _ (fun i' hi' => by omega),
        List.getElem?_eq_getElem (by omega)]
      rfl
    · rw [List.getElem?_set_ne (by omega), List.getElem?_set_ne (by omega)]
      exact ih (by omega) (by omega)

theorem fixup3_get_written_b (e : List DataEntry) (k i : Nat)
    (hlen : 3768 ≤ e.length) (hik : i < k) (hk : k ≤ 6) :
    (fixup3 e k)[1613 + i]? = e[1602]? := by
  induction k with
  | zero => omega
  | succ k ih =>
    simp only [fixup3]
    by_cases hcase : i = k
    · subst hcase
      rw [List.getElem?_set_self (by simp only [List.length_set, fixup3_length]; omega)]
      rw [List.getD_eq_getElem?_getD,
        List.getElem?_set_ne (by omega),
        fixup3_get_ne e i _ (fun i' hi' => by omega),
        List.getElem?_eq_getElem (by omega)]
      rfl
    · rw [List.getElem?_set_ne (by omega), List.getElem?_set_ne (by omega)]
      exact ih (by omega) (by omega)

/-- C4: after `fixup` on an index table long enough to contain all fixed-up
positions, each 6-wide animation block repeats its canonical entry, positions
3765..3767 hold the pre-fixup entries 3762..3764, and the two 6-wide ranges
at 1363 and 1613 hold the entries at 1352 and 1602. -/
theorem c4_fixup (e : List DataEntry) (hlen : 3768 ≤ e.length) :
    (∀ i j, i < 48 → 1 ≤ j → j < 6 →
      (fixup e)[3450 + 6 * i + j]? = (fixup e)[3450 + 6 * i]?) ∧
    (∀ i, i < 3 → (fixup e)[3765 + i]? = e[3762 + i]?) ∧
    (∀ i, i < 6 →
      (fixup e)[1363 + i]? = (fixup e)[1352]? ∧
      (fixup e)[1613 + i]? = (fixup e)[1602]?) := by
  have hlen1 : 3768 ≤ (fixup1 e 48).length := by rw [fixup1_length]; omega
  have hlen2 : 3768 ≤ (fixup2 (fixup1 e 48) 3).length := by rw [fixup2_length]; omega
  refine ⟨?_, ?_, ?_⟩
  · intro i j hi hj1 hj6
    unfold fixup
    rw [fixup3_get_ne _ _ _ (fun i' hi' => by omega),
      fixup2_get_ne _ _ _ (fun i' hi' => by omega),
      fixup1_get_written e 48 i j hlen hi (by omega) hj1 hj6,
      fixup3_get_ne _ _ _ (fun i' hi' => by omega),
      fixup2_get_ne _ _ _ (fun i' hi' => by omega),
      fixup1_get_ne e 48 _ (fun i' j' hi' hj1' hj6' => by omega)]
  · intro i hi
    unfold fixup
    rw [fixup3_get_ne _ _ _ (fun i' hi' => by omega),
      fixup2_get_written (fixup1 e 48) 3 i hlen1 hi (by omega),
      fixup1_get_ne e 48 _ (fun i' j' hi' hj1' hj6' => by omega)]
  · intro i hi
    unfold fixup
    constructor
    · rw [fixup3_get_written_a (fixup2 (fixup1 e 48) 3) 6 i hlen2 hi (by omega),
        fixup3_get_ne _ _ _ (fun i' hi' => by omega)]
    · rw [fixup3_get_written_b (fixup2 (fixup1 e 48) 3) 6 i hlen2 hi (by omega),
        fixup3_get_ne _ _ _ (fun i' hi' => by omega)]

/-- C4 witness: the theorem applied to the table of 3768 default entries. -/
theorem c4_witness :
    3768 ≤ e4.length ∧
    (fixup e4)[3450 + 6 * 0 + 1]? = (fixup e4)[3450 + 6 * 0]? :=
  ⟨by unfold e4; rw [List.length_replicate],
   (c4_fixup e4 (by unfold e4; rw [List.length_replicate])).1 0 1
     (by decide) (by decide) (by decide)⟩

/-- C10: code bug — after `get_or_insert 5` on an empty collection the index
5 is simultaneously a live object key and a member of `free_object_indexes`
(the loop inserts `index` instead of the skipped indexes `i`), so the next
`allocate` hands out index 5 although it is already occupied. -/
theorem c10_free_list_bug :
    5 ∈ (Collection.get_or_insert Collection.empty 5).free_object_indexes ∧
    5 ∈ (Collection.get_or_insert Collection.empty 5).objects ∧
    ((Collection.get_or_insert Collection.empty 5).allocate).2 = some 5 ∧
    (Collection.get_or_insert Collection.empty 5).last_object_index = 6 := by decide

end Freeserf

